import Mathlib

/-!
# Verification of the geo2-ip-webserver Access Decision Engine

This file embeds the access-decision core of the repository in Lean 4 and
proves/refutes the frozen claims about it.

Sources of the embedding:
* `src/.planning/phases/1/PLAN.md` (Task 4) gives the actual IP-precedence
  code: `sort_ip_rules(rules) = sorted(rules, key=lambda r: r.cidr.count("/"),
  reverse=True)` followed by a first-match loop over the sorted matching
  rules, and (Task 3) the try/except that nulls the screenshot artifact key.
* `src/unnamed/part_000` (the site-detail admin page) gives the
  configuration-time rejection of polygons with fewer than 3 vertices.
* The backend service files (`backend/app/services/access_control.py`,
  `geofence` evaluation, `audit_log.py`, `api/public.py`) are not present in
  the repository snapshot; those parts are modelled from the specification
  (spec.md sections 3, 4.2, 4.3, 4.4) and are marked `Modelled from the spec:`
  in their doc comments.

Python's `sorted` is a stable sort; it is modelled here by a stable
insertion sort on a `Nat` key in descending order.
-/

namespace Geo2

/-- The action of one IP rule, from the data model (`action: Allow|Deny`). -/
inductive RuleAction
  | allow
  | deny
deriving DecidableEq, Repr

/-- One network-range policy: `{ cidr: string, action, is_active: bool }`. -/
structure IPRule where
  cidr : String
  action : RuleAction
  is_active : Bool
deriving DecidableEq, Repr

/-- The per-site filter mode; value names follow the frontend strings
`'disabled' | 'ip' | 'geo' | 'ip_and_geo'`. -/
inductive FilterMode
  | disabled
  | ip
  | geo
  | ip_and_geo
deriving DecidableEq, Repr

/-- The closed vocabulary of reason codes (spec section 6). -/
inductive Reason
  | disabled
  | ip_rule_allow
  | ip_rule_deny
  | ip_no_match
  | geo_inside
  | geo_outside
  | geo_no_geofences
  | geo_missing_coordinates
  | evaluation_error
deriving DecidableEq, Repr

/-- A GPS coordinate pair (lat, lon), kept as rationals so that the
planar polygon test is exactly computable. -/
structure GPS where
  lat : ℚ
  lon : ℚ
deriving DecidableEq, Repr

/-- A geofence shape: `Circle{center_lat, center_lon, radius_meters}` or
`Polygon{ring}` (data model, spec section 3). -/
inductive Shape
  | circle (center_lat center_lon radius_meters : ℚ)
  | polygon (ring : List (ℚ × ℚ))
deriving DecidableEq, Repr

/-- A stored geofence record with the nullable fields of the frontend
`Geofence` interface (`src/unnamed/part_000`): a polygon ring, or a
center/radius triple; a record where neither is fully present is corrupt. -/
structure GeofenceRec where
  polygon : Option (List (ℚ × ℚ))
  center_lat : Option ℚ
  center_lon : Option ℚ
  radius_meters : Option ℚ
  is_active : Bool
deriving DecidableEq, Repr

/-- `EvaluationInput` from the data model (spec section 3). -/
structure EvaluationInput where
  filter_mode : FilterMode
  client_ip : String
  client_gps : Option GPS
  ip_rules : List IPRule
  geofences : List GeofenceRec
deriving DecidableEq, Repr

/-- `AccessDecision{allowed, reason}` (the optional ip-geo enrichment is
out of scope of every claim and omitted). -/
structure AccessDecision where
  allowed : Bool
  reason : Reason
deriving DecidableEq, Repr

/-! ## IP and CIDR parsing

Modelled from the spec: the backend parses IPv4 literals and CIDR strings
(`backend/app/services/ip_rules.py` is not in the snapshot).  A dotted-quad
IPv4 literal becomes a `Nat` below `2^32`; a CIDR string `a.b.c.d/p` with
`p ≤ 32` becomes the pair (address, prefix length).  Parse failure is
`none`, the model of the typed parse error / raised exception. -/

/-- Split a character list on a separator character (model of Python's
`str.split`): `splitOnChar '.' "a.b"` gives the two groups. -/
def splitOnChar (c : Char) : List Char → List (List Char)
  | [] => [[]]
  | x :: xs =>
    match splitOnChar c xs with
    | [] => [[]]
    | g :: gs => if x = c then [] :: g :: gs else (x :: g) :: gs

/-- The numeric value of a decimal digit character, `none` otherwise. -/
def digitVal (c : Char) : Option Nat :=
  if c.isDigit then some (c.toNat - 48) else none

/-- Accumulator loop of `natOfDigits`. -/
def natOfDigitsAux : List Char → Nat → Option Nat
  | [], acc => some acc
  | c :: cs, acc =>
    match digitVal c with
    | none => none
    | some d => natOfDigitsAux cs (acc * 10 + d)

/-- Read a nonempty decimal digit string as a `Nat`. -/
def natOfDigits (l : List Char) : Option Nat :=
  if l.isEmpty then none else natOfDigitsAux l 0

/-- Parse a dotted-quad IPv4 literal (as a character list) into its
32-bit numeric value. -/
def parseIPv4Chars (l : List Char) : Option Nat :=
  match (splitOnChar '.' l).mapM natOfDigits with
  | some [a, b, c, d] =>
    if a < 256 && b < 256 && c < 256 && d < 256 then
      some (((a * 256 + b) * 256 + c) * 256 + d)
    else none
  | _ => none

/-- Parse a dotted-quad IPv4 literal. -/
def parseIPv4 (s : String) : Option Nat :=
  parseIPv4Chars s.toList

/-- Parse a CIDR string `addr/plen` into (network address, prefix length). -/
def parseCIDR (s : String) : Option (Nat × Nat) :=
  match splitOnChar '/' s.toList with
  | [addrCs, plenCs] =>
    match parseIPv4Chars addrCs, natOfDigits plenCs with
    | some a, some p => if p ≤ 32 then some (a, p) else none
    | _, _ => none
  | _ => none

/-- Modelled from the spec: `ip` falls within the CIDR range iff the top
`plen` bits agree (`ip_in_cidr` of `backend/app/services/access_control.py`,
referenced but not defined in PLAN.md).  Unparsable strings do not match. -/
def ip_in_cidr (ip cidr : String) : Bool :=
  match parseIPv4 ip, parseCIDR cidr with
  | some a, some (n, p) => a / 2 ^ (32 - p) == n / 2 ^ (32 - p)
  | _, _ => false

/-! ## The specificity sort of PLAN.md Task 4

`sorted(rules, key=lambda r: r.cidr.count("/"), reverse=True)` — a stable
descending sort keyed on the number of `'/'` characters in the rule's CIDR
string.  Python's `sorted` is stable; `sortByKeyDesc` is the stable
descending insertion sort: an element moves ahead of another only when its
key is strictly larger. -/

/-- The number of `'/'` characters in a string: the sort key used by
`sort_ip_rules` (PLAN.md line 290). -/
def countSlash (s : String) : Nat :=
  s.toList.count '/'

/-- Stable descending insert: `x` is placed before the first element whose
key is not larger than `x`'s (so among equal keys, earlier list positions
stay earlier). -/
def insertByKeyDesc {α : Type} (key : α → Nat) (x : α) : List α → List α
  | [] => [x]
  | y :: ys => if key y ≤ key x then x :: y :: ys else y :: insertByKeyDesc key x ys

/-- Stable descending insertion sort by a `Nat` key: the model of Python's
`sorted(..., key=..., reverse=True)`. -/
def sortByKeyDesc {α : Type} (key : α → Nat) : List α → List α
  | [] => []
  | x :: xs => insertByKeyDesc key x (sortByKeyDesc key xs)

/-- `sort_ip_rules` from PLAN.md lines 289-290: stable descending sort of
the rules keyed on the count of `'/'` in the CIDR string. -/
def sort_ip_rules (rules : List IPRule) : List IPRule :=
  sortByKeyDesc (fun r => countSlash r.cidr) rules

/-! ## CIDR Matcher and IP check -/

/-- Only `is_active` rules are considered (spec section 4.1). -/
def activeRules (rules : List IPRule) : List IPRule :=
  rules.filter (fun r => r.is_active)

/-- The active rules whose CIDR range contains `ip`, in creation order:
`[r for r in ip_rules if ip_in_cidr(client_ip, r.cidr)]` (PLAN.md line 292). -/
def matchingRules (ip : String) (rules : List IPRule) : List IPRule :=
  (activeRules rules).filter (fun r => ip_in_cidr ip r.cidr)

/-- The CIDR Matcher `match(ip, rules)`: matching active rules, ordered by
the `sort_ip_rules` specificity sort (PLAN.md line 293). -/
def matchRules (ip : String) (rules : List IPRule) : List IPRule :=
  sort_ip_rules (matchingRules ip rules)

/-- The IP sub-check.  Modelled from the spec for the error paths
(malformed client IP or corrupt CIDR record gives `evaluation_error`,
spec section 4.3); the match/sort/first-rule path is the PLAN.md Task 4
code: take the first rule of the sorted matches; `allow` gives
`ip_rule_allow`, `deny` gives `ip_rule_deny`, no match gives `ip_no_match`. -/
def ipCheck (ip : String) (rules : List IPRule) : Bool × Reason :=
  match parseIPv4 ip with
  | none => (false, Reason.evaluation_error)
  | some _ =>
    if (activeRules rules).any (fun r => (parseCIDR r.cidr).isNone) then
      (false, Reason.evaluation_error)
    else
      match matchRules ip rules with
      | [] => (false, Reason.ip_no_match)
      | r :: _ =>
        match r.action with
        | RuleAction.allow => (true, Reason.ip_rule_allow)
        | RuleAction.deny => (false, Reason.ip_rule_deny)

/-! ## Geofence records and the geo check -/

/-- Decode a stored geofence record into its shape; `none` is a corrupt
record (neither a polygon ring nor a full center/radius triple). -/
def shapeOf (g : GeofenceRec) : Option Shape :=
  match g.polygon with
  | some ring => some (Shape.polygon ring)
  | none =>
    match g.center_lat, g.center_lon, g.radius_meters with
    | some la, some lo, some r => some (Shape.circle la lo r)
    | _, _, _ => none

/-- Only active geofences are considered (spec sections 4.2, 4.3). -/
def activeFences (gs : List GeofenceRec) : List GeofenceRec :=
  gs.filter (fun g => g.is_active)

/-- Modelled from the spec: the geo sub-check (spec section 4.3), generic
over the containment test `contains` of the Geofence Evaluator.  Missing
GPS gives `geo_missing_coordinates`; a corrupt active record gives
`evaluation_error`; zero active geofences give `geo_no_geofences`;
inside at least one gives `geo_inside`; outside all gives `geo_outside`. -/
def geoCheck (contains : GPS → Shape → Bool) (gps : Option GPS)
    (gs : List GeofenceRec) : Bool × Reason :=
  match gps with
  | none => (false, Reason.geo_missing_coordinates)
  | some p =>
    if (activeFences gs).any (fun g => (shapeOf g).isNone) then
      (false, Reason.evaluation_error)
    else if (activeFences gs).isEmpty then
      (false, Reason.geo_no_geofences)
    else if (activeFences gs).any (fun g => ((shapeOf g).map (contains p)).getD false) then
      (true, Reason.geo_inside)
    else
      (false, Reason.geo_outside)

/-- Modelled from the spec: the Access Decision Engine
`evaluate(input) -> AccessDecision` (spec section 4.3), generic over the
Geofence Evaluator's containment test.  `Disabled` skips both checks;
`IpOnly` runs the IP check; `GeoOnly` runs the geo check; `IpAndGeo` runs
the IP check first and, only if it passes, the geo check, so a failing IP
check's reason is the one reported.  A total function: no exception can
escape. -/
def evaluate (contains : GPS → Shape → Bool) (inp : EvaluationInput) :
    AccessDecision :=
  match inp.filter_mode with
  | FilterMode.disabled => ⟨true, Reason.disabled⟩
  | FilterMode.ip =>
    let r := ipCheck inp.client_ip inp.ip_rules
    ⟨r.1, r.2⟩
  | FilterMode.geo =>
    let r := geoCheck contains inp.client_gps inp.geofences
    ⟨r.1, r.2⟩
  | FilterMode.ip_and_geo =>
    let ri := ipCheck inp.client_ip inp.ip_rules
    if ri.1 then
      let rg := geoCheck contains inp.client_gps inp.geofences
      ⟨rg.1, rg.2⟩
    else ⟨false, ri.2⟩

/-! ## Geofence Evaluator: polygon containment (even-odd ray casting)

Modelled from the spec: a standard even-odd (ray-casting) point-in-polygon
test over (lat, lon) treated as planar coordinates; vertices in the order
given, the ring implicitly closed (spec section 4.2).  The geofence
service file is not in the repository snapshot. -/

/-- One step of the even-odd test: does the edge from `a` to `b` cross the
horizontal ray going right from `p`?  The classic crossing condition: the
edge straddles `p`'s second coordinate and the intersection point lies
strictly to the right of `p`. -/
def edgeCrosses (p a b : ℚ × ℚ) : Bool :=
  (decide (a.2 > p.2) != decide (b.2 > p.2)) &&
    decide (p.1 < (b.1 - a.1) * (p.2 - a.2) / (b.2 - a.2) + a.1)

/-- The edges of a ring, implicitly closed: the last vertex connects back
to the first. -/
def ringEdges (ring : List (ℚ × ℚ)) : List ((ℚ × ℚ) × (ℚ × ℚ)) :=
  match ring with
  | [] => []
  | v :: vs => List.zip (v :: vs) (vs ++ [v])

/-- The number of ring edges crossed by the rightward ray from `p`. -/
def crossCount (p : ℚ × ℚ) (ring : List (ℚ × ℚ)) : Nat :=
  ((ringEdges ring).filter (fun e => edgeCrosses p e.1 e.2)).length

/-- The even-odd test: inside iff the ray crosses an odd number of edges. -/
def evenOddInside (p : ℚ × ℚ) (ring : List (ℚ × ℚ)) : Bool :=
  crossCount p ring % 2 == 1

/-- Polygon containment with the defensive guard of spec section 4.2: a
ring with fewer than 3 vertices never contains any point. -/
def polyContains (p : ℚ × ℚ) (ring : List (ℚ × ℚ)) : Bool :=
  if ring.length < 3 then false else evenOddInside p ring

/-- The configuration-time polygon guard from `src/unnamed/part_000`
(`addGeofence`): the submission is rejected (alert, no API call) when
fewer than 3 points have been drawn, i.e. accepted iff
`!(polygonCoords.length < 3)`. -/
def polygonDrawAccepted (coords : List (ℚ × ℚ)) : Bool :=
  !(coords.length < 3)

/-! ## Geofence Evaluator: circle containment (haversine)

Modelled from the spec: true iff the great-circle (haversine) distance
from the point to the center is at most `radius_meters`, on a spherical
earth (spec section 4.2); the mean earth radius 6 371 000 m is used. -/

/-- The haversine great-circle distance in meters between two
(latitude, longitude) pairs given in degrees. -/
noncomputable def haversineDist (lat1 lon1 lat2 lon2 : ℝ) : ℝ :=
  let earthR : ℝ := 6371000
  let f1 := lat1 * Real.pi / 180
  let f2 := lat2 * Real.pi / 180
  let l1 := lon1 * Real.pi / 180
  let l2 := lon2 * Real.pi / 180
  let h := Real.sin ((f2 - f1) / 2) ^ 2 +
    Real.cos f1 * Real.cos f2 * Real.sin ((l2 - l1) / 2) ^ 2
  2 * earthR * Real.arcsin (Real.sqrt h)

open Classical in
/-- The Geofence Evaluator's containment test `contains(point, geofence)`:
haversine disc for circles, even-odd ray casting for polygons
(spec section 4.2). -/
noncomputable def shapeContains (p : GPS) : Shape → Bool
  | Shape.circle la lo r =>
    if haversineDist (la : ℝ) (lo : ℝ) (p.lat : ℝ) (p.lon : ℝ) ≤ (r : ℝ) then
      true
    else false
  | Shape.polygon ring => polyContains (p.lat, p.lon) ring

/-! ## Audit Recorder and the public request path

Modelled from the spec: `backend/app/api/public.py` and
`backend/app/services/audit_log.py` are not in the repository snapshot.
The gateway computes the decision, records exactly one audit entry, and
the screenshot capture around it is wrapped in try/except that nulls the
artifact key on failure (PLAN.md Task 3:
`except Exception: ... artifact_s3_key = None`); a content-fetch failure
afterwards is turned into an error response without touching the audit
write (spec section 4.4). -/

/-- The stored decision label of an audit entry. -/
inductive DecisionLabel
  | allowedEntry
  | blockedEntry
deriving DecidableEq, Repr

/-- The audit-entry fields the claims constrain. -/
structure AuditEntry where
  decision : DecisionLabel
  reason : Reason
  artifact_key : Option String
deriving DecidableEq, Repr

/-- The audit label of an access decision. -/
def decisionLabel (d : AccessDecision) : DecisionLabel :=
  if d.allowed then DecisionLabel.allowedEntry else DecisionLabel.blockedEntry

/-- Modelled from the spec: the public request path of
`backend/app/api/public.py` after the decision is computed.  `shot` is the
outcome of the screenshot capture attempted on the blocked path (`.error`
models a raised exception, caught by the PLAN.md Task 3 try/except, which
leaves the artifact key null); `content` is the outcome of the content
fetch on the allowed path.  The function returns the list of audit
entries written: always exactly one, holding the computed decision, with
the artifact key attached only when a capture succeeded. -/
def handlePublicRequest (dec : AccessDecision) (shot : Except Unit String)
    (content : Except Unit Unit) : List AuditEntry :=
  let entry : AuditEntry := ⟨decisionLabel dec, dec.reason, none⟩
  let entry2 :=
    if dec.allowed then entry
    else
      match shot with
      | Except.ok k => { entry with artifact_key := some k }
      | Except.error _ => entry
  -- the content fetch outcome never reaches the audit write
  match content with
  | Except.ok _ => [entry2]
  | Except.error _ => [entry2]

/-! ## Concrete fixtures used by the scenario theorems -/

/-- The broad blanket rule of spec Scenario A: `10.0.0.0/8 deny`. -/
def ruleDeny8 : IPRule := ⟨"10.0.0.0/8", RuleAction.deny, true⟩

/-- The narrow exception rule of spec Scenario A: `10.0.0.5/32 allow`. -/
def ruleAllow32 : IPRule := ⟨"10.0.0.5/32", RuleAction.allow, true⟩

/-- A broad allow rule, used to make the IP sub-check pass. -/
def ruleAllow8 : IPRule := ⟨"10.0.0.0/8", RuleAction.allow, true⟩

/-- The circle geofence of spec Scenarios C/D: center (51.505, -0.09),
radius 5000 m, active. -/
def circleRec : GeofenceRec :=
  ⟨none, some 51.505, some (-0.09), some 5000, true⟩

/-- A triangular polygon geofence record (active). -/
def triangleRec : GeofenceRec :=
  ⟨some [(0, 0), (4, 0), (0, 4)], none, none, none, true⟩

/-- Scenario C input: mode GeoOnly, client GPS at the circle's center. -/
def inputScenC : EvaluationInput :=
  ⟨FilterMode.geo, "1.2.3.4", some ⟨51.505, -0.09⟩, [], [circleRec]⟩

/-- Scenario D input: mode GeoOnly, client GPS at (0, 0). -/
def inputScenD : EvaluationInput :=
  ⟨FilterMode.geo, "1.2.3.4", some ⟨0, 0⟩, [], [circleRec]⟩

/-- An active rule whose CIDR string does not parse (corrupt record). -/
def ruleBogus : IPRule := ⟨"bogus", RuleAction.allow, true⟩

/-- An active geofence record with neither a polygon nor a full
center/radius triple (corrupt record). -/
def corruptRec : GeofenceRec := ⟨none, none, none, none, true⟩

/-! # Theorems for the claims -/

/-- C1: the claim says that with rules `[10.0.0.0/8 deny, 10.0.0.5/32
allow]` and client IP `10.0.0.5` in IpOnly mode, `evaluate` returns
`allowed=true, reason=ip_rule_allow` (the narrower rule wins).  The code
does the opposite: `sort_ip_rules` keys on `cidr.count("/")`, which is 1
for every well-formed CIDR, so the stable sort keeps creation order, the
`/8 deny` rule is examined first, and the decision is
`allowed=false, reason=ip_rule_deny` — even though both rules match the
IP, contradicting the repository's own test
`test_ip_rules_precedence_is_deterministic` (PLAN.md Task 4) and the
comment "choose the most specific CIDR". -/
theorem c1_narrow_allow_loses :
    evaluate (fun _ _ => true)
        ⟨FilterMode.ip, "10.0.0.5", none, [ruleDeny8, ruleAllow32], []⟩ =
      ⟨false, Reason.ip_rule_deny⟩ ∧
    ip_in_cidr "10.0.0.5" ruleDeny8.cidr = true ∧
    ip_in_cidr "10.0.0.5" ruleAllow32.cidr = true := by
  decide

/-- C2: the claim says `match(ip, rules)` returns the matching active
rules ordered by descending prefix length.  On the failing input of
Scenario A the two matching rules come back in creation order instead:
the head of the returned list has prefix length 8 and the second has
prefix length 32, because the sort key `cidr.count("/")` equals 1 for
both.  The filter part of the claim (only matching active rules are
returned) is what the code does; the ordering part is not. -/
theorem c2_match_not_prefix_ordered :
    matchRules "10.0.0.5" [ruleDeny8, ruleAllow32] = [ruleDeny8, ruleAllow32] ∧
    parseCIDR ruleDeny8.cidr = some (167772160, 8) ∧
    parseCIDR ruleAllow32.cidr = some (167772165, 32) ∧
    (8 : Nat) < 32 := by
  decide

/-- C9: `evaluate` is deterministic — it is a function of exactly the
filter mode, client IP, client GPS, rule list and geofence list: two
inputs agreeing on those five fields evaluate to the same
`(allowed, reason)` decision.  Totality (never throws) is inherent: the
embedding is a total function into `AccessDecision`. -/
theorem c9_evaluate_deterministic :
    ∀ (contains : GPS → Shape → Bool) (i1 i2 : EvaluationInput),
      i1.filter_mode = i2.filter_mode → i1.client_ip = i2.client_ip →
      i1.client_gps = i2.client_gps → i1.ip_rules = i2.ip_rules →
      i1.geofences = i2.geofences →
      evaluate contains i1 = evaluate contains i2 := by
  intro contains i1 i2 h1 h2 h3 h4 h5
  cases i1
  cases i2
  simp only at h1 h2 h3 h4 h5
  subst h1
  subst h2
  subst h3
  subst h4
  subst h5
  rfl

/-- Witness for C9 at a concrete pair of (equal) inputs. -/
theorem c9_evaluate_deterministic_witness :
    evaluate (fun _ _ => true)
        ⟨FilterMode.ip, "10.0.0.5", none, [ruleDeny8], []⟩ =
      evaluate (fun _ _ => true)
        ⟨FilterMode.ip, "10.0.0.5", none, [ruleDeny8], []⟩ :=
  c9_evaluate_deterministic (fun _ _ => true)
    ⟨FilterMode.ip, "10.0.0.5", none, [ruleDeny8], []⟩
    ⟨FilterMode.ip, "10.0.0.5", none, [ruleDeny8], []⟩
    rfl rfl rfl rfl rfl

/-- C10: every rule whose CIDR string contains exactly one `'/'` has sort
key 1, so the stable descending sort `sort_ip_rules` compares equal keys
everywhere and returns the list unchanged: on well-formed rule lists the
"specificity" sort is the identity and in particular never moves a
narrower rule ahead of a broader one. -/
theorem c10_sort_identity_on_wellformed :
    ∀ rules : List IPRule, (∀ r ∈ rules, countSlash r.cidr = 1) →
      sort_ip_rules rules = rules := by
  intro rules h
  induction rules with
  | nil => rfl
  | cons x xs ih =>
    have hx : countSlash x.cidr = 1 := h x (List.mem_cons_self x xs)
    have hxs : ∀ r ∈ xs, countSlash r.cidr = 1 :=
      fun r hr => h r (List.mem_cons_of_mem x hr)
    have htail : sort_ip_rules xs = xs := ih hxs
    simp only [sort_ip_rules, sortByKeyDesc] at htail ⊢
    rw [htail]
    cases xs with
    | nil => rfl
    | cons y ys =>
      have hy : countSlash y.cidr = 1 := hxs y (List.mem_cons_self y ys)
      simp only [insertByKeyDesc, hx, hy, le_refl, if_true]

/-- Witness for C10: the Scenario A rule list is well-formed and the sort
leaves it unchanged. -/
theorem c10_sort_identity_on_wellformed_witness :
    sort_ip_rules [ruleDeny8, ruleAllow32] = [ruleDeny8, ruleAllow32] :=
  c10_sort_identity_on_wellformed [ruleDeny8, ruleAllow32] (by decide)

/-- C3: for every evaluated public request — whatever the decision and
whatever the outcomes of the screenshot capture and the content fetch —
exactly one audit entry is written; the entry carries the computed
decision, and when the screenshot capture raised an error the entry's
artifact key is null. -/
theorem c3_audit_exactly_once :
    ∀ (dec : AccessDecision) (shot : Except Unit String)
      (content : Except Unit Unit),
      ∃ e : AuditEntry, handlePublicRequest dec shot content = [e] ∧
        e.decision = decisionLabel dec ∧ e.reason = dec.reason ∧
        (shot = Except.error () → e.artifact_key = none) := by
  intro dec shot content
  unfold handlePublicRequest
  cases content <;> cases shot <;> by_cases h : dec.allowed <;>
    simp only [h, if_true, if_false, Bool.false_eq_true, if_neg, ite_false,
      ite_true] <;>
    exact ⟨_, rfl, rfl, rfl, fun hc => by simp at hc ⊢⟩

/-- Witness for C3: Scenario F — a blocked decision whose screenshot
capture raised: the single audit entry is Blocked with a null artifact
key. -/
theorem c3_audit_exactly_once_witness :
    handlePublicRequest ⟨false, Reason.ip_rule_deny⟩ (Except.error ())
        (Except.error ()) =
      [⟨DecisionLabel.blockedEntry, Reason.ip_rule_deny, none⟩] := by
  obtain ⟨e, he, hdec, hreas, hart⟩ :=
    c3_audit_exactly_once ⟨false, Reason.ip_rule_deny⟩ (Except.error ())
      (Except.error ())
  have h1 : e.decision = DecisionLabel.blockedEntry := hdec
  have h2 : e.artifact_key = none := hart rfl
  cases e
  simp only at h1 hreas h2
  subst h1
  subst hreas
  subst h2
  exact he

/-- C7: the polygon side of the Geofence Evaluator.  (1) A ring with
fewer than 3 vertices never contains any point (the defensive guard);
(2) polygon dispatch of `contains` is exactly `polyContains`; (3) the
admin UI's `addGeofence` accepts a drawn polygon iff it has at least 3
points (configuration-time rejection, `src/unnamed/part_000`); (4) on
non-degenerate rings containment is exactly the even-odd test: true iff
the rightward ray from the point crosses an odd number of ring edges
(ring implicitly closed). -/
theorem c7_polygon_evaluator :
    (∀ (p : ℚ × ℚ) (ring : List (ℚ × ℚ)), ring.length < 3 →
        polyContains p ring = false) ∧
    (∀ (gps : GPS) (ring : List (ℚ × ℚ)),
        shapeContains gps (Shape.polygon ring) =
          polyContains (gps.lat, gps.lon) ring) ∧
    (∀ coords : List (ℚ × ℚ), polygonDrawAccepted coords = true ↔
        3 ≤ coords.length) ∧
    (∀ (p : ℚ × ℚ) (ring : List (ℚ × ℚ)), 3 ≤ ring.length →
        (polyContains p ring = true ↔ crossCount p ring % 2 = 1)) := by
  refine ⟨?_, ?_, ?_, ?_⟩
  · intro p ring h
    simp [polyContains, h]
  · intro gps ring
    rfl
  · intro coords
    simp [polygonDrawAccepted, Nat.not_lt]
  · intro p ring h
    simp [polyContains, evenOddInside, Nat.not_lt.2 h]

/-- Witness for C7 on concrete rings: a 2-vertex ring contains nothing,
the 3-point triangle is accepted by the UI guard, and on the 4-vertex
square the even-odd characterization holds. -/
theorem c7_polygon_evaluator_witness :
    polyContains (2, 2) [(0, 0), (4, 0)] = false ∧
    (polygonDrawAccepted [(0, 0), (4, 0), (0, 4)] = true ↔
      3 ≤ ([(0, 0), (4, 0), (0, 4)] : List (ℚ × ℚ)).length) ∧
    (polyContains (2, 2) [(0, 0), (4, 0), (4, 4), (0, 4)] = true ↔
      crossCount (2, 2) [(0, 0), (4, 0), (4, 4), (0, 4)] % 2 = 1) :=
  ⟨c7_polygon_evaluator.1 (2, 2) [(0, 0), (4, 0)] (by decide),
    c7_polygon_evaluator.2.2.1 [(0, 0), (4, 0), (0, 4)],
    c7_polygon_evaluator.2.2.2 (2, 2) [(0, 0), (4, 0), (4, 4), (0, 4)]
      (by decide)⟩

/-- C5: the filter-mode state machine.  (1) In Disabled mode the result
is `allowed=true, reason=disabled` whatever the IP, GPS, rules or
geofences.  (2) In IpAndGeo mode: `allowed` is the conjunction of the two
sub-checks; when the IP sub-check fails its reason is reported (even if
the geo sub-check would also fail — the IP check runs first); when the IP
sub-check passes the geo sub-check's reason is reported.  (3) Scenario E:
IpAndGeo with a passing IP rule but no GPS gives
`allowed=false, reason=geo_missing_coordinates`. -/
theorem c5_mode_state_machine :
    (∀ (contains : GPS → Shape → Bool) (inp : EvaluationInput),
        inp.filter_mode = FilterMode.disabled →
        evaluate contains inp = ⟨true, Reason.disabled⟩) ∧
    (∀ (contains : GPS → Shape → Bool) (inp : EvaluationInput),
        inp.filter_mode = FilterMode.ip_and_geo →
        (evaluate contains inp).allowed =
          ((ipCheck inp.client_ip inp.ip_rules).1 &&
            (geoCheck contains inp.client_gps inp.geofences).1) ∧
        ((ipCheck inp.client_ip inp.ip_rules).1 = false →
          (evaluate contains inp).reason =
            (ipCheck inp.client_ip inp.ip_rules).2) ∧
        ((ipCheck inp.client_ip inp.ip_rules).1 = true →
          (evaluate contains inp).reason =
            (geoCheck contains inp.client_gps inp.geofences).2)) ∧
    evaluate (fun _ _ => true)
        ⟨FilterMode.ip_and_geo, "10.0.0.5", none, [ruleAllow8], []⟩ =
      ⟨false, Reason.geo_missing_coordinates⟩ := by
  refine ⟨?_, ?_, ?_⟩
  · intro contains inp h
    simp [evaluate, h]
  · intro contains inp h
    rcases hip : ipCheck inp.client_ip inp.ip_rules with ⟨ia, ir⟩
    rcases hgeo : geoCheck contains inp.client_gps inp.geofences with ⟨ga, gr⟩
    cases ia <;> simp [evaluate, h, hip, hgeo]
  · decide

/-- Witness for C5: Disabled mode at a concrete input, and the IP-fail
reason precedence at the Scenario A deny input. -/
theorem c5_mode_state_machine_witness :
    evaluate (fun _ _ => true) ⟨FilterMode.disabled, "x", none, [], []⟩ =
      ⟨true, Reason.disabled⟩ ∧
    (evaluate (fun _ _ => true)
        ⟨FilterMode.ip_and_geo, "10.0.0.5", none, [ruleDeny8], []⟩).reason =
      (ipCheck "10.0.0.5" [ruleDeny8]).2 := by
  constructor
  · exact c5_mode_state_machine.1 (fun _ _ => true)
      ⟨FilterMode.disabled, "x", none, [], []⟩ rfl
  · exact (c5_mode_state_machine.2.1 (fun _ _ => true)
      ⟨FilterMode.ip_and_geo, "10.0.0.5", none, [ruleDeny8], []⟩ rfl).2.1
      (by decide)

/-- C6: the mandatory geo sub-check, which `evaluate` uses in GeoOnly
mode (last conjunct) and in IpAndGeo mode (shown with C5).  Absent GPS
gives `geo_missing_coordinates` (checked first); GPS present with zero
active geofences gives `geo_no_geofences`; inside at least one active
geofence gives `geo_inside`; outside all of them gives `geo_outside`
(the latter two on well-formed records). -/
theorem c6_geo_check_cases :
    (∀ (contains : GPS → Shape → Bool) (gs : List GeofenceRec),
        geoCheck contains none gs = (false, Reason.geo_missing_coordinates)) ∧
    (∀ (contains : GPS → Shape → Bool) (p : GPS) (gs : List GeofenceRec),
        activeFences gs = [] →
        geoCheck contains (some p) gs = (false, Reason.geo_no_geofences)) ∧
    (∀ (contains : GPS → Shape → Bool) (p : GPS) (gs : List GeofenceRec),
        (∀ g ∈ activeFences gs, (shapeOf g).isSome) →
        (∃ g ∈ activeFences gs, ∃ s, shapeOf g = some s ∧ contains p s = true) →
        geoCheck contains (some p) gs = (true, Reason.geo_inside)) ∧
    (∀ (contains : GPS → Shape → Bool) (p : GPS) (gs : List GeofenceRec),
        (∀ g ∈ activeFences gs, (shapeOf g).isSome) →
        activeFences gs ≠ [] →
        (∀ g ∈ activeFences gs, ∀ s, shapeOf g = some s → contains p s = false) →
        geoCheck contains (some p) gs = (false, Reason.geo_outside)) ∧
    (∀ (contains : GPS → Shape → Bool) (inp : EvaluationInput),
        inp.filter_mode = FilterMode.geo →
        evaluate contains inp =
          ⟨(geoCheck contains inp.client_gps inp.geofences).1,
            (geoCheck contains inp.client_gps inp.geofences).2⟩) := by
  refine ⟨?_, ?_, ?_, ?_, ?_⟩
  · intro contains gs
    rfl
  · intro contains p gs h
    simp [geoCheck, h]
  · intro contains p gs hall hex
    have hclean : ((activeFences gs).any fun g => (shapeOf g).isNone) = false := by
      rw [List.any_eq_false]
      intro g hg
      obtain ⟨s, hs⟩ := Option.isSome_iff_exists.mp (hall g hg)
      simp [hs]
    have hany : ((activeFences gs).any
        fun g => ((shapeOf g).map (contains p)).getD false) = true := by
      rw [List.any_eq_true]
      obtain ⟨g, hg, s, hs, hc⟩ := hex
      exact ⟨g, hg, by simp [hs, hc]⟩
    have hne : (activeFences gs).isEmpty = false := by
      obtain ⟨g, hg, _⟩ := hex
      simp [List.isEmpty_iff, List.ne_nil_of_mem hg]
    simp [geoCheck, hclean, hne, hany]
  · intro contains p gs hall hne hout
    have hclean : ((activeFences gs).any fun g => (shapeOf g).isNone) = false := by
      rw [List.any_eq_false]
      intro g hg
      obtain ⟨s, hs⟩ := Option.isSome_iff_exists.mp (hall g hg)
      simp [hs]
    have hany : ((activeFences gs).any
        fun g => ((shapeOf g).map (contains p)).getD false) = false := by
      rw [List.any_eq_false]
      intro g hg
      obtain ⟨s, hs⟩ := Option.isSome_iff_exists.mp (hall g hg)
      simp [hs, hout g hg s hs]
    have hne' : (activeFences gs).isEmpty = false := by
      simp [List.isEmpty_iff, hne]
    simp [geoCheck, hclean, hne', hany]
  · intro contains inp h
    simp [evaluate, h]

/-- Witness for C6: the four geo outcomes at concrete inputs, and the
GeoOnly dispatch of `evaluate`. -/
theorem c6_geo_check_cases_witness :
    geoCheck (fun _ _ => true) none [] =
      (false, Reason.geo_missing_coordinates) ∧
    geoCheck (fun _ _ => true) (some ⟨0, 0⟩) [] =
      (false, Reason.geo_no_geofences) ∧
    geoCheck (fun _ _ => true) (some ⟨0, 0⟩) [triangleRec] =
      (true, Reason.geo_inside) ∧
    geoCheck (fun _ _ => false) (some ⟨0, 0⟩) [triangleRec] =
      (false, Reason.geo_outside) ∧
    evaluate (fun _ _ => true) ⟨FilterMode.geo, "x", none, [], []⟩ =
      ⟨(geoCheck (fun _ _ => true) none []).1,
        (geoCheck (fun _ _ => true) none []).2⟩ := by
  have hA : activeFences [triangleRec] = [triangleRec] := rfl
  refine ⟨c6_geo_check_cases.1 (fun _ _ => true) [],
    c6_geo_check_cases.2.1 (fun _ _ => true) ⟨0, 0⟩ [] rfl,
    c6_geo_check_cases.2.2.1 (fun _ _ => true) ⟨0, 0⟩ [triangleRec] ?_ ?_,
    c6_geo_check_cases.2.2.2.1 (fun _ _ => false) ⟨0, 0⟩ [triangleRec] ?_ ?_ ?_,
    c6_geo_check_cases.2.2.2.2 (fun _ _ => true)
      ⟨FilterMode.geo, "x", none, [], []⟩ rfl⟩
  · intro g hg
    rw [hA] at hg
    simp only [List.mem_singleton] at hg
    subst hg
    rfl
  · exact ⟨triangleRec, by rw [hA]; exact List.mem_cons_self _ _,
      Shape.polygon [(0, 0), (4, 0), (0, 4)], rfl, rfl⟩
  · intro g hg
    rw [hA] at hg
    simp only [List.mem_singleton] at hg
    subst hg
    rfl
  · rw [hA]
    exact List.cons_ne_nil _ _
  · intro g hg s hs
    rfl

/-- Helper: if the IP sub-check passes, its reason is `ip_rule_allow`;
in particular a passing IP sub-check never reports `evaluation_error`. -/
theorem ipCheck_allowed_reason (ip : String) (rules : List IPRule) :
    (ipCheck ip rules).1 = true → (ipCheck ip rules).2 = Reason.ip_rule_allow := by
  unfold ipCheck
  rcases hp : parseIPv4 ip with _ | a
  · simp
  · rcases hc : (activeRules rules).any fun r => (parseCIDR r.cidr).isNone
    · simp only [Bool.false_eq_true, if_false]
      rcases hm : matchRules ip rules with _ | ⟨r, rest⟩
      · simp
      · cases ha : r.action <;> simp [ha]
    · simp

/-- Helper: if the geo sub-check passes, its reason is `geo_inside`;
in particular a passing geo sub-check never reports `evaluation_error`. -/
theorem geoCheck_allowed_reason (contains : GPS → Shape → Bool)
    (gps : Option GPS) (gs : List GeofenceRec) :
    (geoCheck contains gps gs).1 = true →
    (geoCheck contains gps gs).2 = Reason.geo_inside := by
  unfold geoCheck
  rcases gps with _ | p
  · simp
  · rcases hc : (activeFences gs).any fun g => (shapeOf g).isNone
    · simp only [Bool.false_eq_true, if_false]
      rcases he : (activeFences gs).isEmpty
      · simp only [Bool.false_eq_true, if_false]
        rcases ha : (activeFences gs).any fun g =>
            ((shapeOf g).map (contains p)).getD false <;> simp
      · simp
    · simp

/-- C4 counterexample: the claim quantifies over every input, but in
Disabled mode the engine short-circuits to `allowed=true, reason=disabled`
without reading the client IP at all, and in GeoOnly mode a malformed
client IP is likewise ignored — so a malformed IP does not yield
`evaluation_error` there, and the engine can even return `allowed=true`
on such an input. -/
theorem c4_error_counterexample :
    parseIPv4 "not-an-ip" = none ∧
    evaluate (fun _ _ => true)
        ⟨FilterMode.disabled, "not-an-ip", none, [], []⟩ =
      ⟨true, Reason.disabled⟩ ∧
    evaluate (fun _ _ => true)
        ⟨FilterMode.geo, "not-an-ip", some ⟨0, 0⟩, [], [triangleRec]⟩ =
      ⟨true, Reason.geo_inside⟩ ∧
    (⟨true, Reason.disabled⟩ : AccessDecision) ≠
      ⟨false, Reason.evaluation_error⟩ := by
  refine ⟨by decide, rfl, rfl, by decide⟩

/-- C4 amended: in the modes whose checks actually run the engine fails
closed with `evaluation_error`.  (1) Malformed client IP in IpOnly or
IpAndGeo; (2) a corrupt active rule record in IpOnly or IpAndGeo; (3) a
corrupt active geofence record in GeoOnly with GPS present; (4) the same
in IpAndGeo when the IP sub-check passes; and (5) in every mode, whenever
the reported reason is `evaluation_error` the decision is
`allowed=false` — the engine never allows on an evaluation error.  The
embedding is a total function, so no exception reaches the caller. -/
theorem c4_fail_closed_amended :
    (∀ (contains : GPS → Shape → Bool) (inp : EvaluationInput),
        (inp.filter_mode = FilterMode.ip ∨
          inp.filter_mode = FilterMode.ip_and_geo) →
        parseIPv4 inp.client_ip = none →
        evaluate contains inp = ⟨false, Reason.evaluation_error⟩) ∧
    (∀ (contains : GPS → Shape → Bool) (inp : EvaluationInput),
        (inp.filter_mode = FilterMode.ip ∨
          inp.filter_mode = FilterMode.ip_and_geo) →
        (∃ r ∈ activeRules inp.ip_rules, parseCIDR r.cidr = none) →
        evaluate contains inp = ⟨false, Reason.evaluation_error⟩) ∧
    (∀ (contains : GPS → Shape → Bool) (inp : EvaluationInput) (p : GPS),
        inp.filter_mode = FilterMode.geo →
        inp.client_gps = some p →
        (∃ g ∈ activeFences inp.geofences, shapeOf g = none) →
        evaluate contains inp = ⟨false, Reason.evaluation_error⟩) ∧
    (∀ (contains : GPS → Shape → Bool) (inp : EvaluationInput) (p : GPS),
        inp.filter_mode = FilterMode.ip_and_geo →
        (ipCheck inp.client_ip inp.ip_rules).1 = true →
        inp.client_gps = some p →
        (∃ g ∈ activeFences inp.geofences, shapeOf g = none) →
        evaluate contains inp = ⟨false, Reason.evaluation_error⟩) ∧
    (∀ (contains : GPS → Shape → Bool) (inp : EvaluationInput),
        (evaluate contains inp).reason = Reason.evaluation_error →
        (evaluate contains inp).allowed = false) := by
  refine ⟨?_, ?_, ?_, ?_, ?_⟩
  · intro contains inp hmode hip
    have h1 : ipCheck inp.client_ip inp.ip_rules =
        (false, Reason.evaluation_error) := by
      unfold ipCheck
      rw [hip]
    rcases hmode with h | h <;> simp [evaluate, h, h1]
  · intro contains inp hmode hex
    have hcorrupt : ((activeRules inp.ip_rules).any
        fun r => (parseCIDR r.cidr).isNone) = true := by
      rw [List.any_eq_true]
      obtain ⟨r, hr, hnone⟩ := hex
      exact ⟨r, hr, by simp [hnone]⟩
    have h1 : ipCheck inp.client_ip inp.ip_rules =
        (false, Reason.evaluation_error) := by
      unfold ipCheck
      rcases hp : parseIPv4 inp.client_ip with _ | a
      · rfl
      · simp [hcorrupt]
    rcases hmode with h | h <;> simp [evaluate, h, h1]
  · intro contains inp p hmode hgps hex
    have hcorrupt : ((activeFences inp.geofences).any
        fun g => (shapeOf g).isNone) = true := by
      rw [List.any_eq_true]
      obtain ⟨g, hg, hnone⟩ := hex
      exact ⟨g, hg, by simp [hnone]⟩
    have h1 : geoCheck contains inp.client_gps inp.geofences =
        (false, Reason.evaluation_error) := by
      rw [hgps]
      simp [geoCheck, hcorrupt]
    simp [evaluate, hmode, h1]
  · intro contains inp p hmode hipass hgps hex
    have hcorrupt : ((activeFences inp.geofences).any
        fun g => (shapeOf g).isNone) = true := by
      rw [List.any_eq_true]
      obtain ⟨g, hg, hnone⟩ := hex
      exact ⟨g, hg, by simp [hnone]⟩
    have h1 : geoCheck contains inp.client_gps inp.geofences =
        (false, Reason.evaluation_error) := by
      rw [hgps]
      simp [geoCheck, hcorrupt]
    simp [evaluate, hmode, hipass, h1]
  · intro contains inp herr
    rcases hm : inp.filter_mode
    case disabled => simp [evaluate, hm] at herr
    case ip =>
      simp only [evaluate, hm] at herr ⊢
      rcases hb : (ipCheck inp.client_ip inp.ip_rules).1
      · rfl
      · rw [ipCheck_allowed_reason _ _ hb] at herr
        cases herr
    case geo =>
      simp only [evaluate, hm] at herr ⊢
      rcases hb : (geoCheck contains inp.client_gps inp.geofences).1
      · rfl
      · rw [geoCheck_allowed_reason _ _ _ hb] at herr
        cases herr
    case ip_and_geo =>
      simp only [evaluate, hm] at herr ⊢
      rcases hi : (ipCheck inp.client_ip inp.ip_rules).1
      · simp [hi]
      · simp only [hi, if_true] at herr ⊢
        rcases hb : (geoCheck contains inp.client_gps inp.geofences).1
        · rfl
        · rw [geoCheck_allowed_reason _ _ _ hb] at herr
          cases herr

/-- Witness for C4 amended: each fail-closed clause at a concrete
input. -/
theorem c4_fail_closed_amended_witness :
    evaluate (fun _ _ => true) ⟨FilterMode.ip, "not-an-ip", none, [], []⟩ =
      ⟨false, Reason.evaluation_error⟩ ∧
    evaluate (fun _ _ => true)
        ⟨FilterMode.ip, "10.0.0.5", none, [ruleBogus], []⟩ =
      ⟨false, Reason.evaluation_error⟩ ∧
    evaluate (fun _ _ => true)
        ⟨FilterMode.geo, "10.0.0.5", some ⟨0, 0⟩, [], [corruptRec]⟩ =
      ⟨false, Reason.evaluation_error⟩ ∧
    evaluate (fun _ _ => true)
        ⟨FilterMode.ip_and_geo, "10.0.0.5", some ⟨0, 0⟩, [ruleAllow8],
          [corruptRec]⟩ =
      ⟨false, Reason.evaluation_error⟩ ∧
    (evaluate (fun _ _ => true)
        ⟨FilterMode.ip, "not-an-ip", none, [], []⟩).allowed = false := by
  refine ⟨c4_fail_closed_amended.1 (fun _ _ => true)
      ⟨FilterMode.ip, "not-an-ip", none, [], []⟩ (Or.inl rfl) (by decide),
    c4_fail_closed_amended.2.1 (fun _ _ => true)
      ⟨FilterMode.ip, "10.0.0.5", none, [ruleBogus], []⟩ (Or.inl rfl)
      ⟨ruleBogus, List.mem_cons_self _ _, by decide⟩,
    c4_fail_closed_amended.2.2.1 (fun _ _ => true)
      ⟨FilterMode.geo, "10.0.0.5", some ⟨0, 0⟩, [], [corruptRec]⟩ ⟨0, 0⟩
      rfl rfl ⟨corruptRec, List.mem_cons_self _ _, rfl⟩,
    c4_fail_closed_amended.2.2.2.1 (fun _ _ => true)
      ⟨FilterMode.ip_and_geo, "10.0.0.5", some ⟨0, 0⟩, [ruleAllow8],
        [corruptRec]⟩ ⟨0, 0⟩ rfl (by decide) rfl
      ⟨corruptRec, List.mem_cons_self _ _, rfl⟩,
    c4_fail_closed_amended.2.2.2.2 (fun _ _ => true)
      ⟨FilterMode.ip, "not-an-ip", none, [], []⟩ (by decide)⟩

/-- Helper for C8: the haversine distance from the circle center of
Scenario C to itself is at most the 5000 m radius (it is 0). -/
theorem hav_center_le : haversineDist 51.505 (-0.09) 51.505 (-0.09) ≤ 5000 := by
  simp only [haversineDist]
  have e1 : (51.505 * Real.pi / 180 - 51.505 * Real.pi / 180) / 2 = 0 := by ring
  have e2 : ((-0.09) * Real.pi / 180 - (-0.09) * Real.pi / 180) / 2 = 0 := by ring
  rw [e1, e2, Real.sin_zero]
  norm_num [Real.sqrt_zero, Real.arcsin_zero]

/-- Helper for C8: the haversine distance from (51.505, -0.09) to (0, 0)
exceeds 5000 m.  The central angle is at least the half-latitude
difference 51.505·π/360 > 0.42 rad, so the distance exceeds
2·6371000·0.42 m, far above 5000 m. -/
theorem hav_far_gt : 5000 < haversineDist 51.505 (-0.09) 0 0 := by
  have hpi := Real.pi_gt_three
  have hpipos := Real.pi_pos
  simp only [haversineDist]
  have e1 : (0 * Real.pi / 180 - 51.505 * Real.pi / 180) / 2 =
      -(51.505 * Real.pi / 360) := by ring
  have e2 : (0 * Real.pi / 180 - (-0.09) * Real.pi / 180) / 2 =
      0.09 * Real.pi / 360 := by ring
  rw [e1, e2, Real.sin_neg, neg_sq]
  set θ : ℝ := 51.505 * Real.pi / 360 with hθ
  set T : ℝ := Real.sin θ ^ 2 +
    Real.cos (51.505 * Real.pi / 180) * Real.cos (0 * Real.pi / 180) *
      Real.sin (0.09 * Real.pi / 360) ^ 2 with hT
  have hθpos : 0 < θ := by rw [hθ]; positivity
  have hθle : θ ≤ Real.pi / 2 := by rw [hθ]; nlinarith
  have hsin_nonneg : 0 ≤ Real.sin θ :=
    Real.sin_nonneg_of_nonneg_of_le_pi hθpos.le (by nlinarith)
  have hcos1 : 0 ≤ Real.cos (51.505 * Real.pi / 180) := by
    apply Real.cos_nonneg_of_mem_Icc
    constructor
    · nlinarith
    · nlinarith
  have hcos2 : 0 ≤ Real.cos (0 * Real.pi / 180) := by norm_num
  have hterm : 0 ≤ Real.cos (51.505 * Real.pi / 180) *
      Real.cos (0 * Real.pi / 180) * Real.sin (0.09 * Real.pi / 360) ^ 2 :=
    mul_nonneg (mul_nonneg hcos1 hcos2) (sq_nonneg _)
  have hsqrt : Real.sin θ ≤ Real.sqrt T := by
    calc Real.sin θ = Real.sqrt (Real.sin θ ^ 2) := (Real.sqrt_sq hsin_nonneg).symm
    _ ≤ Real.sqrt T := Real.sqrt_le_sqrt (by rw [hT]; nlinarith)
  have harcsin : θ ≤ Real.arcsin (Real.sqrt T) := by
    calc θ = Real.arcsin (Real.sin θ) := (Real.arcsin_sin (by nlinarith) hθle).symm
    _ ≤ Real.arcsin (Real.sqrt T) := Real.monotone_arcsin hsqrt
  have hθbig : (0.42 : ℝ) < θ := by rw [hθ]; nlinarith
  nlinarith [harcsin, hθbig]

/-- Helper for C8: the evaluator places the circle's center inside the
Scenario C geofence. -/
theorem contains_center :
    shapeContains ⟨51.505, -0.09⟩ (Shape.circle 51.505 (-0.09) 5000) = true := by
  simp [shapeContains]
  exact hav_center_le

/-- Helper for C8: the evaluator places (0, 0) outside the Scenario C
geofence. -/
theorem contains_far :
    shapeContains ⟨0, 0⟩ (Shape.circle 51.505 (-0.09) 5000) = false := by
  simp [shapeContains]
  exact hav_far_gt

/-- C8: circle containment is exactly the haversine-disc test (first
conjunct); concretely, the point (51.505, -0.09) is within 5000 m of the
circle center (51.505, -0.09) while (0, 0) is not, and the GeoOnly
decisions of Scenarios C and D follow: `allowed=true, reason=geo_inside`
at the center and `allowed=false, reason=geo_outside` at (0, 0). -/
theorem c8_circle_scenarios :
    (∀ (gps : GPS) (la lo r : ℚ),
        shapeContains gps (Shape.circle la lo r) = true ↔
          haversineDist (la : ℝ) (lo : ℝ) (gps.lat : ℝ) (gps.lon : ℝ) ≤ (r : ℝ)) ∧
    haversineDist 51.505 (-0.09) 51.505 (-0.09) ≤ 5000 ∧
    5000 < haversineDist 51.505 (-0.09) 0 0 ∧
    evaluate shapeContains inputScenC = ⟨true, Reason.geo_inside⟩ ∧
    evaluate shapeContains inputScenD = ⟨false, Reason.geo_outside⟩ := by
  refine ⟨?_, hav_center_le, hav_far_gt, ?_, ?_⟩
  · intro gps la lo r
    by_cases h : haversineDist (la : ℝ) (lo : ℝ) (gps.lat : ℝ) (gps.lon : ℝ) ≤ (r : ℝ)
    · simp [shapeContains, h]
    · simp [shapeContains, h]
  · simp [evaluate, inputScenC, geoCheck, activeFences, circleRec, shapeOf,
      List.filter, contains_center]
  · simp [evaluate, inputScenD, geoCheck, activeFences, circleRec, shapeOf,
      List.filter, contains_far]

end Geo2
